import Mathlib

/-!
Shallow embedding of the client-side Job Store of the work-flow-connect
repository (src/src/contexts/JobContext.tsx).

The store's state is the in-memory list `jobs : List JobType`; every
operation of the provider updates it through a pure list transformation
(`setJobs(prevJobs => ...)`), so each operation is embedded as a pure
function on `List JobType`.  The acting user (`currentUser` from the
authentication context) is an `Option UserInfo` parameter.  The derived
`savedJobs` view and the effect that recomputes it after every change of
`jobs` or `currentUser` are embedded as a small state machine
(`StoreState` / `applyOp`).  Toast notifications are embedded as values of
the `Toast` structure.  JavaScript numbers used as like counters are
embedded as `Int` (the code clamps the decrement with `Math.max(0, ...)`).
-/

/-- `ReplyType` of JobContext.tsx. -/
structure ReplyType where
  id : String
  content : String
  userId : String
  userName : String
  userPhoto : String
  timestamp : Nat
deriving DecidableEq, Repr

/-- `CommentType` of JobContext.tsx. -/
structure CommentType where
  id : String
  content : String
  userId : String
  userName : String
  userPhoto : String
  timestamp : Nat
  replies : List ReplyType
deriving DecidableEq, Repr

/-- The status union type `'open' | 'in-progress' | 'completed'`. -/
inductive JobStatus where
  | open_
  | inProgress
  | completed
deriving DecidableEq, Repr

/-- `JobType` of JobContext.tsx. -/
structure JobType where
  id : String
  title : String
  description : String
  budget : Nat
  category : String
  skills : List String
  userId : String
  userName : String
  userPhoto : Option String
  status : JobStatus
  timestamp : Nat
  comments : List CommentType
  likedBy : List String
  likesCount : Int
  savedBy : List String
deriving DecidableEq, Repr

/-- The acting user supplied by the authentication context
(`currentUser`), and the `user : any` argument of the comment/reply
operations: `{ id, name, photoURL }`. -/
structure UserInfo where
  id : String
  name : String
  photoURL : Option String
deriving DecidableEq, Repr

/-- A toast notification `{ variant?, title, description }`;
`destructive = true` embeds `variant: "destructive"`. -/
structure Toast where
  destructive : Bool
  title : String
  description : String
deriving DecidableEq, Repr

/-- `getJob`: `jobs.find(job => job.id === jobId)`. -/
def getJob (jobs : List JobType) (jobId : String) : Option JobType :=
  jobs.find? (fun job => job.id == jobId)

/-- A `Partial<JobType>` value: each field either absent (`none`) or
present with a value. -/
structure JobUpdate where
  id : Option String := none
  title : Option String := none
  description : Option String := none
  budget : Option Nat := none
  category : Option String := none
  skills : Option (List String) := none
  userId : Option String := none
  userName : Option String := none
  userPhoto : Option (Option String) := none
  status : Option JobStatus := none
  timestamp : Option Nat := none
  comments : Option (List CommentType) := none
  likedBy : Option (List String) := none
  likesCount : Option Int := none
  savedBy : Option (List String) := none
deriving DecidableEq, Repr

/-- The spread merge `{ ...job, ...updates }`. -/
def applyUpdates (job : JobType) (u : JobUpdate) : JobType :=
  { id := u.id.getD job.id
    title := u.title.getD job.title
    description := u.description.getD job.description
    budget := u.budget.getD job.budget
    category := u.category.getD job.category
    skills := u.skills.getD job.skills
    userId := u.userId.getD job.userId
    userName := u.userName.getD job.userName
    userPhoto := u.userPhoto.getD job.userPhoto
    status := u.status.getD job.status
    timestamp := u.timestamp.getD job.timestamp
    comments := u.comments.getD job.comments
    likedBy := u.likedBy.getD job.likedBy
    likesCount := u.likesCount.getD job.likesCount
    savedBy := u.savedBy.getD job.savedBy }

/-- `updateJob`: `prevJobs.map(job => job.id === jobId ? { ...job, ...updates } : job)`. -/
def updateJob (jobs : List JobType) (jobId : String) (updates : JobUpdate) : List JobType :=
  jobs.map (fun job => if job.id == jobId then applyUpdates job updates else job)

/-- `deleteJob`: `prevJobs.filter(job => job.id !== jobId)`. -/
def deleteJob (jobs : List JobType) (jobId : String) : List JobType :=
  jobs.filter (fun job => job.id != jobId)

/-- The comment built by `addCommentToJob` (`id = Date.now().toString()`,
`timestamp = Date.now()`, `userPhoto = user.photoURL || ''`, empty replies). -/
def buildComment (content : String) (user : UserInfo) (now : Nat) : CommentType :=
  { id := toString now
    content := content
    userId := user.id
    userName := user.name
    userPhoto := user.photoURL.getD ""
    timestamp := now
    replies := [] }

/-- `addCommentToJob`: prepends the new comment to the matching job's
comments: `{ ...job, comments: [newComment, ...job.comments] }`. -/
def addCommentToJob (jobs : List JobType) (jobId : String) (content : String)
    (user : UserInfo) (now : Nat) : List JobType :=
  let newComment := buildComment content user now
  jobs.map (fun job =>
    if job.id == jobId then { job with comments := newComment :: job.comments } else job)

/-- The reply built by `addReplyToComment`. -/
def buildReply (content : String) (user : UserInfo) (now : Nat) : ReplyType :=
  { id := toString now
    content := content
    userId := user.id
    userName := user.name
    userPhoto := user.photoURL.getD ""
    timestamp := now }

/-- `addReplyToComment`: appends the new reply to the matching comment of
the matching job: `{ ...comment, replies: [...comment.replies, newReply] }`. -/
def addReplyToComment (jobs : List JobType) (jobId commentId : String) (content : String)
    (user : UserInfo) (now : Nat) : List JobType :=
  let newReply := buildReply content user now
  jobs.map (fun job =>
    if job.id == jobId then
      { job with comments := job.comments.map (fun comment =>
          if comment.id == commentId then
            { comment with replies := comment.replies ++ [newReply] }
          else comment) }
    else job)

/-- The per-job transition of `toggleJobLike` for an authenticated user
with id `uid`: flip membership of `uid` in `likedBy`, decrement clamped at
0 (`Math.max(0, job.likesCount - 1)`) or increment `likesCount`. -/
def toggleLikeJobFn (uid jobId : String) (job : JobType) : JobType :=
  if job.id == jobId then
    if job.likedBy.contains uid then
      { job with likedBy := job.likedBy.filter (fun i => i != uid)
                 likesCount := max 0 (job.likesCount - 1) }
    else
      { job with likedBy := job.likedBy ++ [uid]
                 likesCount := job.likesCount + 1 }
  else job

/-- `toggleJobLike` on the job list: with no authenticated user the
function returns early (the list is untouched); otherwise it maps
`toggleLikeJobFn` over the list. -/
def toggleJobLike (currentUser : Option UserInfo) (jobs : List JobType)
    (jobId : String) : List JobType :=
  match currentUser with
  | none => jobs
  | some u => jobs.map (toggleLikeJobFn u.id jobId)

/-- The per-job transition of `toggleSaveJob`: flip membership of `uid` in
`savedBy`. -/
def toggleSaveJobFn (uid jobId : String) (job : JobType) : JobType :=
  if job.id == jobId then
    if job.savedBy.contains uid then
      { job with savedBy := job.savedBy.filter (fun i => i != uid) }
    else
      { job with savedBy := job.savedBy ++ [uid] }
  else job

/-- `toggleSaveJob` on the job list: no-op without an authenticated user. -/
def toggleSaveJob (currentUser : Option UserInfo) (jobs : List JobType)
    (jobId : String) : List JobType :=
  match currentUser with
  | none => jobs
  | some u => jobs.map (toggleSaveJobFn u.id jobId)

/-- `isJobLikedByCurrentUser`: false with no user or job not found,
else membership of the user id in `likedBy`. -/
def isJobLikedByCurrentUser (currentUser : Option UserInfo) (jobs : List JobType)
    (jobId : String) : Bool :=
  match currentUser with
  | none => false
  | some u =>
    match jobs.find? (fun job => job.id == jobId) with
    | some job => job.likedBy.contains u.id
    | none => false

/-- `isJobSavedByCurrentUser`: false with no user or job not found,
else membership of the user id in `savedBy`. -/
def isJobSavedByCurrentUser (currentUser : Option UserInfo) (jobs : List JobType)
    (jobId : String) : Bool :=
  match currentUser with
  | none => false
  | some u =>
    match jobs.find? (fun job => job.id == jobId) with
    | some job => job.savedBy.contains u.id
    | none => false

/-- `getLikesCount`: the job's `likesCount`, or 0 if not found. -/
def getLikesCount (jobs : List JobType) (jobId : String) : Int :=
  match jobs.find? (fun job => job.id == jobId) with
  | some job => job.likesCount
  | none => 0

/-- The toast emitted by `toggleJobLike`: a destructive error toast when
no user is authenticated, otherwise a success toast whose title is chosen
by `isJobLikedByCurrentUser` on the provider's (pre-update) `jobs`. -/
def toggleJobLikeToast (currentUser : Option UserInfo) (jobs : List JobType)
    (jobId : String) : Toast :=
  match currentUser with
  | none => { destructive := true, title := "Error",
              description := "Debes iniciar sesión para dar like" }
  | some _ =>
    if isJobLikedByCurrentUser currentUser jobs jobId then
      { destructive := false, title := "Like eliminado",
        description := "Has quitado tu like de esta propuesta" }
    else
      { destructive := false, title := "Like añadido",
        description := "Has dado like a esta propuesta" }

/-- The toast emitted by `toggleSaveJob`. -/
def toggleSaveJobToast (currentUser : Option UserInfo) (jobs : List JobType)
    (jobId : String) : Toast :=
  match currentUser with
  | none => { destructive := true, title := "Error",
              description := "Debes iniciar sesión para guardar propuestas" }
  | some _ =>
    if isJobSavedByCurrentUser currentUser jobs jobId then
      { destructive := false, title := "Propuesta eliminada",
        description := "Has eliminado esta propuesta de tus guardados" }
    else
      { destructive := false, title := "Propuesta guardada",
        description := "Has guardado esta propuesta" }

/-- `updateSavedJobs`: the Saved Jobs view, `jobs.filter(job =>
job.savedBy.includes(currentUser.id))`, or `[]` with no user. -/
def updateSavedJobs (currentUser : Option UserInfo) (jobs : List JobType) : List JobType :=
  match currentUser with
  | some u => jobs.filter (fun job => job.savedBy.contains u.id)
  | none => []

/-- `getMockJobs`: the fixed 5-job seed dataset, parametrized by the
wall-clock time `now` (`Date.now()`). -/
def getMockJobs (now : Nat) : List JobType :=
  [ { id := "1"
      title := "Desarrollo de aplicación web con React"
      description := "Necesito un desarrollador para crear una aplicación web completa utilizando React, Node.js y MongoDB. La aplicación debe tener funcionalidades de autenticación, gestión de usuarios y un panel de administración."
      budget := 2500
      category := "Desarrollo Web"
      skills := ["React", "Node.js", "MongoDB", "Express"]
      userId := "user1"
      userName := "Carlos Martínez"
      userPhoto := some "https://randomuser.me/api/portraits/men/1.jpg"
      status := JobStatus.open_
      timestamp := now - 86400000 * 2
      comments :=
        [ { id := "c1"
            content := "Me interesa este proyecto. Tengo experiencia en proyectos similares."
            userId := "user2"
            userName := "Laura Gómez"
            userPhoto := "https://randomuser.me/api/portraits/women/2.jpg"
            timestamp := now - 43200000
            replies :=
              [ { id := "r1"
                  content := "Gracias por tu interés, por favor envíame un mensaje para discutir los detalles."
                  userId := "user1"
                  userName := "Carlos Martínez"
                  userPhoto := "https://randomuser.me/api/portraits/men/1.jpg"
                  timestamp := now - 36000000 } ] } ]
      likedBy := []
      likesCount := 0
      savedBy := [] }
  , { id := "2"
      title := "Diseño de logotipo para startup de tecnología"
      description := "Somos una startup en el sector de la tecnología y necesitamos un logotipo moderno y profesional que refleje nuestra identidad de marca. Queremos algo minimalista pero impactante."
      budget := 500
      category := "Diseño Gráfico"
      skills := ["Illustrator", "Photoshop", "Diseño de Logos", "Branding"]
      userId := "user3"
      userName := "Ana Rodríguez"
      userPhoto := some "https://randomuser.me/api/portraits/women/3.jpg"
      status := JobStatus.open_
      timestamp := now - 86400000
      comments := []
      likedBy := []
      likesCount := 0
      savedBy := [] }
  , { id := "3"
      title := "Traducción de documentos técnicos inglés-español"
      description := "Necesito traducir manuales técnicos de ingeniería del inglés al español. Son aproximadamente 200 páginas con terminología especializada."
      budget := 800
      category := "Traducción"
      skills := ["Inglés", "Español", "Traducción Técnica"]
      userId := "user4"
      userName := "Roberto Sánchez"
      userPhoto := some "https://randomuser.me/api/portraits/men/4.jpg"
      status := JobStatus.inProgress
      timestamp := now - 86400000 * 5
      comments := []
      likedBy := []
      likesCount := 0
      savedBy := [] }
  , { id := "4"
      title := "Desarrollo de aplicación móvil para Android e iOS"
      description := "Buscamos un desarrollador con experiencia en React Native para crear una aplicación móvil que funcione tanto en Android como en iOS. La aplicación debe tener funcionalidades de geolocalización y notificaciones push."
      budget := 3000
      category := "Desarrollo Móvil"
      skills := ["React Native", "Android", "iOS", "Firebase"]
      userId := "user5"
      userName := "Elena Torres"
      userPhoto := some "https://randomuser.me/api/portraits/women/5.jpg"
      status := JobStatus.open_
      timestamp := now - 86400000 * 3
      comments := []
      likedBy := []
      likesCount := 0
      savedBy := [] }
  , { id := "5"
      title := "Edición y postproducción de video corporativo"
      description := "Tenemos material grabado para un video corporativo de 5 minutos y necesitamos un profesional para la edición y postproducción. Se requiere experiencia en After Effects para animaciones y efectos."
      budget := 1200
      category := "Video y Animación"
      skills := ["Premiere Pro", "After Effects", "Edición de Video", "Postproducción"]
      userId := "user1"
      userName := "Carlos Martínez"
      userPhoto := some "https://randomuser.me/api/portraits/men/1.jpg"
      status := JobStatus.completed
      timestamp := now - 86400000 * 10
      comments := []
      likedBy := []
      likesCount := 0
      savedBy := [] } ]

/-- The fallback branch of `fetchJobs` after the remote fetch failed:
given the cached snapshot (content of `localStorage['wfc_jobs']`, `none`
when absent), returns the adopted in-memory job list and the cache content
afterwards.  With no cache, `getMockJobs()` is adopted and immediately
written to the cache (`localStorage.setItem('wfc_jobs', ...)`). -/
def fetchJobsOnApiFailure (storedJobs : Option (List JobType)) (now : Nat) :
    List JobType × Option (List JobType) :=
  match storedJobs with
  | some stored => (stored, some stored)
  | none =>
    let mockJobs := getMockJobs now
    (mockJobs, some mockJobs)

/-- The provider's state: the acting user, the job list, and the derived
`savedJobs` view. -/
structure StoreState where
  currentUser : Option UserInfo
  jobs : List JobType
  savedJobs : List JobType
deriving DecidableEq, Repr

/-- One operation dispatched against the provider (the `now` arguments
stand for the `Date.now()` reads; `setUserOp` is a change of the
authenticated user coming from the authentication context). -/
inductive StoreOp where
  | updateOp (jobId : String) (updates : JobUpdate)
  | deleteOp (jobId : String)
  | addCommentOp (jobId content : String) (user : UserInfo) (now : Nat)
  | addReplyOp (jobId commentId content : String) (user : UserInfo) (now : Nat)
  | toggleLikeOp (jobId : String)
  | toggleSaveOp (jobId : String)
  | setUserOp (u : Option UserInfo)
deriving Repr

/-- The job-list effect of one operation. -/
def applyOpJobs (currentUser : Option UserInfo) (jobs : List JobType) :
    StoreOp → List JobType
  | StoreOp.updateOp jobId updates => updateJob jobs jobId updates
  | StoreOp.deleteOp jobId => deleteJob jobs jobId
  | StoreOp.addCommentOp jobId content user now => addCommentToJob jobs jobId content user now
  | StoreOp.addReplyOp jobId commentId content user now =>
      addReplyToComment jobs jobId commentId content user now
  | StoreOp.toggleLikeOp jobId => toggleJobLike currentUser jobs jobId
  | StoreOp.toggleSaveOp jobId => toggleSaveJob currentUser jobs jobId
  | StoreOp.setUserOp _ => jobs

/-- The user after one operation. -/
def applyOpUser (currentUser : Option UserInfo) : StoreOp → Option UserInfo
  | StoreOp.setUserOp u => u
  | _ => currentUser

/-- One full provider step: the operation's `setJobs` update followed by
the `useEffect` on `[jobs, currentUser]` that recomputes `savedJobs` via
`updateSavedJobs`. -/
def applyOp (s : StoreState) (op : StoreOp) : StoreState :=
  let u := applyOpUser s.currentUser op
  let js := applyOpJobs s.currentUser s.jobs op
  { currentUser := u, jobs := js, savedJobs := updateSavedJobs u js }

/-- A sequence of `toggleJobLike` calls, each by an authenticated user
(the pair carries the acting user and the target job id). -/
def applyToggles (jobs : List JobType) (calls : List (UserInfo × String)) : List JobType :=
  calls.foldl (fun js c => toggleJobLike (some c.1) js c.2) jobs

/-- The like/save bookkeeping invariant of a single job:
`likesCount == likedBy.length`, and `likedBy` and `savedBy` are
duplicate-free. -/
def jobLikeInvariant (job : JobType) : Prop :=
  job.likesCount = (job.likedBy.length : Int) ∧ job.likedBy.Nodup ∧ job.savedBy.Nodup

instance (job : JobType) : Decidable (jobLikeInvariant job) := by
  unfold jobLikeInvariant; infer_instance

/-- The invariant over the whole store. -/
def storeLikeInvariant (jobs : List JobType) : Prop :=
  ∀ job ∈ jobs, jobLikeInvariant job

instance (jobs : List JobType) : Decidable (storeLikeInvariant jobs) := by
  unfold storeLikeInvariant; infer_instance

/-! ### Helper lemmas -/

theorem contains_eq_true_iff {l : List String} {a : String} : l.contains a = true ↔ a ∈ l :=
  List.elem_iff

theorem find?_map_of_pred_eq {α : Type} (g : α → α) (p : α → Bool)
    (hg : ∀ x, p (g x) = p x) : ∀ l : List α, (l.map g).find? p = (l.find? p).map g
  | [] => rfl
  | a :: l => by
    rw [List.map_cons]
    by_cases h : p a = true
    · rw [List.find?_cons_of_pos _ ((hg a).trans h), List.find?_cons_of_pos _ h]
      rfl
    · rw [List.find?_cons_of_neg, List.find?_cons_of_neg _ (by simpa using h),
        find?_map_of_pred_eq g p hg l]
      simp [hg a, h]

theorem map_eq_self_of_mem {α : Type} {l : List α} {f : α → α}
    (h : ∀ x ∈ l, f x = x) : l.map f = l := by
  induction l with
  | nil => rfl
  | cons a l ih =>
    rw [List.map_cons, h a (List.mem_cons_self a l), ih fun x hx => h x (List.mem_cons_of_mem a hx)]

/-- The per-job like transition never changes a job's id. -/
theorem toggleLikeJobFn_id (uid jobId : String) (job : JobType) :
    (toggleLikeJobFn uid jobId job).id = job.id := by
  unfold toggleLikeJobFn
  split <;> [skip; rfl]
  split <;> rfl

/-- The per-job save transition never changes a job's id. -/
theorem toggleSaveJobFn_id (uid jobId : String) (job : JobType) :
    (toggleSaveJobFn uid jobId job).id = job.id := by
  unfold toggleSaveJobFn
  split <;> [skip; rfl]
  split <;> rfl

/-! ### Claim theorems -/

/-- C5: deleting a job and then looking it up yields "not found":
for every id, `getJob (deleteJob jobs id) id = none` (in particular for
ids of jobs currently in the store).  `getJob` is a pure function of the
job list — in this embedding it returns an `Option JobType` and produces
no new job list, mirroring that the source `getJob` never calls
`setJobs`. -/
theorem deleteJob_then_getJob_none (jobs : List JobType) (jobId : String) :
    getJob (deleteJob jobs jobId) jobId = none := by
  unfold getJob deleteJob
  rw [List.find?_eq_none]
  intro j hj
  rw [List.mem_filter] at hj
  simpa using hj.2

/-- C7: with no authenticated user, `toggleJobLike` and `toggleSaveJob`
leave the job list unchanged and emit a destructive (user-visible error)
toast; both return normally (the embedding functions are total, mirroring
the early `return` taken before the `try` block, so no exception can
propagate). -/
theorem toggle_without_user_noop (jobs : List JobType) (jobId : String) :
    toggleJobLike none jobs jobId = jobs ∧
    toggleSaveJob none jobs jobId = jobs ∧
    toggleJobLikeToast none jobs jobId =
      { destructive := true, title := "Error",
        description := "Debes iniciar sesión para dar like" } ∧
    toggleSaveJobToast none jobs jobId =
      { destructive := true, title := "Error",
        description := "Debes iniciar sesión para guardar propuestas" } :=
  ⟨rfl, rfl, rfl, rfl⟩

/-- C3: when the remote fetch fails and the cache holds no snapshot, the
adopted job list is exactly the 5-item seed dataset `getMockJobs`, and the
very same list is written to the cache.  The seed has ids 1-5, job 1
carries one comment with one nested reply, jobs 2-5 have no comments, and
the three statuses all occur. -/
theorem fetch_failure_no_cache_seeds (now : Nat) :
    fetchJobsOnApiFailure none now = (getMockJobs now, some (getMockJobs now)) ∧
    (getMockJobs now).length = 5 ∧
    (getMockJobs now).map JobType.id = ["1", "2", "3", "4", "5"] ∧
    (getMockJobs now).map (fun j => j.comments.length) = [1, 0, 0, 0, 0] ∧
    (getMockJobs now).map (fun j => (j.comments.map (fun c => c.replies.length))) =
      [[1], [], [], [], []] ∧
    (getMockJobs now).map JobType.status =
      [JobStatus.open_, JobStatus.open_, JobStatus.inProgress,
        JobStatus.open_, JobStatus.completed] :=
  ⟨rfl, rfl, rfl, rfl, rfl, rfl⟩

/-- C4: `addCommentToJob` prepends the newly built comment to the target
job's comments (newest-first), and `addReplyToComment` appends the newly
built reply to the target comment's replies (oldest-first, insertion
order preserved). -/
theorem addComment_prepends_addReply_appends :
    (∀ (jobs : List JobType) (jobId content : String) (user : UserInfo) (now : Nat)
      (j : JobType),
      getJob jobs jobId = some j →
      getJob (addCommentToJob jobs jobId content user now) jobId =
        some { j with comments := buildComment content user now :: j.comments }) ∧
    (∀ (jobs : List JobType) (jobId commentId content : String) (user : UserInfo) (now : Nat)
      (j : JobType) (c : CommentType),
      getJob jobs jobId = some j →
      j.comments.find? (fun cc => cc.id == commentId) = some c →
      ∃ j', getJob (addReplyToComment jobs jobId commentId content user now) jobId = some j' ∧
        j'.id = j.id ∧
        j'.comments.find? (fun cc => cc.id == commentId) =
          some { c with replies := c.replies ++ [buildReply content user now] }) := by
  constructor
  · intro jobs jobId content user now j hfind
    unfold getJob at hfind ⊢
    have hj : j.id = jobId := by simpa using List.find?_some hfind
    have hrw : addCommentToJob jobs jobId content user now =
        jobs.map (fun job => if job.id == jobId then
          { job with comments := buildComment content user now :: job.comments } else job) := rfl
    rw [hrw, find?_map_of_pred_eq _ _ (fun x => by split <;> rfl), hfind]
    simp [hj]
  · intro jobs jobId commentId content user now j c hfind hcfind
    unfold getJob at hfind ⊢
    have hj : j.id = jobId := by simpa using List.find?_some hfind
    have hc : c.id = commentId := by simpa using List.find?_some hcfind
    have hrw : addReplyToComment jobs jobId commentId content user now =
        jobs.map (fun job => if job.id == jobId then
          { job with comments := job.comments.map (fun comment =>
              if comment.id == commentId then
                { comment with replies := comment.replies ++ [buildReply content user now] }
              else comment) }
          else job) := rfl
    refine ⟨{ j with comments := j.comments.map (fun comment =>
        if comment.id == commentId then
          { comment with replies := comment.replies ++ [buildReply content user now] }
        else comment) }, ?_, rfl, ?_⟩
    · rw [hrw, find?_map_of_pred_eq _ _ (fun x => by split <;> rfl), hfind]
      simp [hj]
    · show (j.comments.map _).find? _ = _
      rw [find?_map_of_pred_eq _ _ (fun x => by split <;> rfl), hcfind]
      simp [hc]

/-- The partial update `{status: 'completed'}`. -/
def statusCompletedUpdate : JobUpdate := { status := some JobStatus.completed }

/-- C8: `updateJob(id, {status: 'completed'})` changes only the status
field of the job with that id (the record-update equality keeps every
other field of that job literally unchanged); jobs whose id differs are
unchanged, and the list keeps its length. -/
theorem updateJob_status_only (jobs : List JobType) (jobId : String) :
    (updateJob jobs jobId statusCompletedUpdate).length = jobs.length ∧
    ∀ (k : Nat) (hk : k < jobs.length)
      (hk' : k < (updateJob jobs jobId statusCompletedUpdate).length),
      ((jobs.get ⟨k, hk⟩).id ≠ jobId →
        (updateJob jobs jobId statusCompletedUpdate).get ⟨k, hk'⟩ = jobs.get ⟨k, hk⟩) ∧
      ((jobs.get ⟨k, hk⟩).id = jobId →
        (updateJob jobs jobId statusCompletedUpdate).get ⟨k, hk'⟩ =
          { jobs.get ⟨k, hk⟩ with status := JobStatus.completed }) := by
  refine ⟨by simp [updateJob], ?_⟩
  intro k hk hk'
  have hget : (updateJob jobs jobId statusCompletedUpdate).get ⟨k, hk'⟩ =
      (if ((jobs.get ⟨k, hk⟩).id == jobId) = true then
        applyUpdates (jobs.get ⟨k, hk⟩) statusCompletedUpdate else jobs.get ⟨k, hk⟩) := by
    simp [updateJob, List.get_eq_getElem]
  constructor
  · intro hne
    have hcond : ¬ (((jobs.get ⟨k, hk⟩).id == jobId) = true) := by simpa using hne
    rw [hget, if_neg hcond]
  · intro heq
    have hcond : ((jobs.get ⟨k, hk⟩).id == jobId) = true := by simpa using heq
    rw [hget, if_pos hcond]
    rfl

/-! ### Sample data for witnesses and counterexamples -/

def sampleReply : ReplyType :=
  { id := "r9", content := "re", userId := "user2", userName := "Resp",
    userPhoto := "", timestamp := 5 }

def sampleComment : CommentType :=
  { id := "c9", content := "hola", userId := "user2", userName := "Com",
    userPhoto := "", timestamp := 6, replies := [sampleReply] }

def sampleJob : JobType :=
  { id := "j1", title := "T", description := "D", budget := 100, category := "Cat",
    skills := ["a"], userId := "owner", userName := "Owner", userPhoto := none,
    status := JobStatus.open_, timestamp := 7, comments := [sampleComment],
    likedBy := ["U", "V"], likesCount := 2, savedBy := ["W"] }

def sampleJob2 : JobType :=
  { id := "j2", title := "T2", description := "D2", budget := 200, category := "Cat2",
    skills := [], userId := "owner2", userName := "Owner2", userPhoto := some "p",
    status := JobStatus.inProgress, timestamp := 8, comments := [],
    likedBy := [], likesCount := 0, savedBy := [] }

def sampleUser : UserInfo := { id := "U", name := "Uli", photoURL := none }

/-- Witness for C4 at a concrete store. -/
theorem addComment_prepends_addReply_appends_witness :
    getJob (addCommentToJob [sampleJob] "j1" "nuevo" sampleUser 42) "j1" =
      some { sampleJob with comments := buildComment "nuevo" sampleUser 42 :: sampleJob.comments } ∧
    ∃ j', getJob (addReplyToComment [sampleJob] "j1" "c9" "resp" sampleUser 43) "j1" = some j' ∧
      j'.id = sampleJob.id ∧
      j'.comments.find? (fun cc => cc.id == "c9") =
        some { sampleComment with replies := sampleComment.replies ++ [buildReply "resp" sampleUser 43] } :=
  ⟨addComment_prepends_addReply_appends.1 [sampleJob] "j1" "nuevo" sampleUser 42 sampleJob
      (by decide),
    addComment_prepends_addReply_appends.2 [sampleJob] "j1" "c9" "resp" sampleUser 43 sampleJob
      sampleComment (by decide) (by decide)⟩

/-- Witness for C8 at a concrete store. -/
theorem updateJob_status_only_witness :
    (updateJob [sampleJob] "j1" statusCompletedUpdate).get ⟨0, by decide⟩ =
      { sampleJob with status := JobStatus.completed } :=
  ((updateJob_status_only [sampleJob] "j1").2 0 (by decide) (by decide)).2 (by decide)

/-- C9: operations addressed at a job id absent from the store leave the
job list unchanged; `addReplyToComment` addressed at a comment id absent
from the target job likewise leaves the job list unchanged. -/
theorem missing_target_ops_noop :
    (∀ (jobs : List JobType) (jobId : String), (∀ j ∈ jobs, j.id ≠ jobId) →
      (∀ updates : JobUpdate, updateJob jobs jobId updates = jobs) ∧
      deleteJob jobs jobId = jobs ∧
      (∀ (content : String) (user : UserInfo) (now : Nat),
        addCommentToJob jobs jobId content user now = jobs) ∧
      (∀ (commentId content : String) (user : UserInfo) (now : Nat),
        addReplyToComment jobs jobId commentId content user now = jobs) ∧
      (∀ user : UserInfo, toggleJobLike (some user) jobs jobId = jobs) ∧
      (∀ user : UserInfo, toggleSaveJob (some user) jobs jobId = jobs)) ∧
    (∀ (jobs : List JobType) (jobId commentId content : String) (user : UserInfo) (now : Nat),
      (∀ j ∈ jobs, j.id = jobId → ∀ c ∈ j.comments, c.id ≠ commentId) →
      addReplyToComment jobs jobId commentId content user now = jobs) := by
  constructor
  · intro jobs jobId h
    have hcond : ∀ j ∈ jobs, ¬ ((j.id == jobId) = true) := fun j hj => by
      simpa using h j hj
    refine ⟨?_, ?_, ?_, ?_, ?_, ?_⟩
    · intro updates
      exact map_eq_self_of_mem fun x hx => if_neg (hcond x hx)
    · exact List.filter_eq_self.mpr fun a ha => by simpa using h a ha
    · intro content user now
      exact map_eq_self_of_mem fun x hx => if_neg (hcond x hx)
    · intro commentId content user now
      exact map_eq_self_of_mem fun x hx => if_neg (hcond x hx)
    · intro user
      exact map_eq_self_of_mem fun x hx => by
        unfold toggleLikeJobFn
        exact if_neg (hcond x hx)
    · intro user
      exact map_eq_self_of_mem fun x hx => by
        unfold toggleSaveJobFn
        exact if_neg (hcond x hx)
  · intro jobs jobId commentId content user now h
    apply map_eq_self_of_mem
    intro x hx
    by_cases hid : x.id = jobId
    · rw [if_pos (by simpa using hid)]
      have hcm : x.comments.map (fun comment =>
          if comment.id == commentId then
            { comment with replies := comment.replies ++ [buildReply content user now] }
          else comment) = x.comments :=
        map_eq_self_of_mem fun c hc => if_neg (by simpa using h x hx hid c hc)
      rw [hcm]
    · rw [if_neg (by simpa using hid)]

/-- Witness for C9 at a concrete store and missing ids. -/
theorem missing_target_ops_noop_witness :
    deleteJob [sampleJob] "zzz" = [sampleJob] ∧
    addReplyToComment [sampleJob] "j1" "nope" "txt" sampleUser 44 = [sampleJob] :=
  ⟨(missing_target_ops_noop.1 [sampleJob] "zzz" (by decide)).2.1,
    missing_target_ops_noop.2 [sampleJob] "j1" "nope" "txt" sampleUser 44 (by decide)⟩

/-- C10: like state and save state are independent.  `toggleJobLike`
changes at most the `likedBy` and `likesCount` fields of the job with the
target id (the record-update equality pins every other field to the
original), `toggleSaveJob` changes at most `savedBy`, and jobs with a
different id are untouched by both. -/
theorem toggle_modifies_only_social_fields (jobs : List JobType) (u : UserInfo)
    (jobId : String) :
    (toggleJobLike (some u) jobs jobId).length = jobs.length ∧
    (toggleSaveJob (some u) jobs jobId).length = jobs.length ∧
    ∀ (k : Nat) (hk : k < jobs.length)
      (h1 : k < (toggleJobLike (some u) jobs jobId).length)
      (h2 : k < (toggleSaveJob (some u) jobs jobId).length),
      ((jobs.get ⟨k, hk⟩).id ≠ jobId →
        (toggleJobLike (some u) jobs jobId).get ⟨k, h1⟩ = jobs.get ⟨k, hk⟩ ∧
        (toggleSaveJob (some u) jobs jobId).get ⟨k, h2⟩ = jobs.get ⟨k, hk⟩) ∧
      (toggleJobLike (some u) jobs jobId).get ⟨k, h1⟩ =
        { jobs.get ⟨k, hk⟩ with
            likedBy := ((toggleJobLike (some u) jobs jobId).get ⟨k, h1⟩).likedBy
            likesCount := ((toggleJobLike (some u) jobs jobId).get ⟨k, h1⟩).likesCount } ∧
      (toggleSaveJob (some u) jobs jobId).get ⟨k, h2⟩ =
        { jobs.get ⟨k, hk⟩ with
            savedBy := ((toggleSaveJob (some u) jobs jobId).get ⟨k, h2⟩).savedBy } := by
  refine ⟨by simp [toggleJobLike], by simp [toggleSaveJob], ?_⟩
  intro k hk h1 h2
  have hgetL : (toggleJobLike (some u) jobs jobId).get ⟨k, h1⟩ =
      toggleLikeJobFn u.id jobId (jobs.get ⟨k, hk⟩) := by
    simp [toggleJobLike, List.get_eq_getElem]
  have hgetS : (toggleSaveJob (some u) jobs jobId).get ⟨k, h2⟩ =
      toggleSaveJobFn u.id jobId (jobs.get ⟨k, hk⟩) := by
    simp [toggleSaveJob, List.get_eq_getElem]
  refine ⟨?_, ?_, ?_⟩
  · intro hne
    have hcond : ¬ (((jobs.get ⟨k, hk⟩).id == jobId) = true) := by simpa using hne
    constructor
    · rw [hgetL]
      unfold toggleLikeJobFn
      exact if_neg hcond
    · rw [hgetS]
      unfold toggleSaveJobFn
      exact if_neg hcond
  · rw [hgetL]
    unfold toggleLikeJobFn
    by_cases hcond : (((jobs.get ⟨k, hk⟩).id == jobId) = true)
    · rw [if_pos hcond]
      by_cases hmem : ((jobs.get ⟨k, hk⟩).likedBy.contains u.id = true)
      · rw [if_pos hmem]
      · rw [if_neg hmem]
    · rw [if_neg hcond]
  · rw [hgetS]
    unfold toggleSaveJobFn
    by_cases hcond : (((jobs.get ⟨k, hk⟩).id == jobId) = true)
    · rw [if_pos hcond]
      by_cases hmem : ((jobs.get ⟨k, hk⟩).savedBy.contains u.id = true)
      · rw [if_pos hmem]
      · rw [if_neg hmem]
    · rw [if_neg hcond]

/-- Witness for C10 at a concrete store: the non-target job is untouched
and the target job keeps its non-social fields. -/
theorem toggle_modifies_only_social_fields_witness :
    ((toggleJobLike (some sampleUser) [sampleJob, sampleJob2] "j1").get ⟨1, by decide⟩ =
      sampleJob2) ∧
    ((toggleSaveJob (some sampleUser) [sampleJob, sampleJob2] "j1").get ⟨0, by decide⟩ =
      { sampleJob with
          savedBy := ((toggleSaveJob (some sampleUser) [sampleJob, sampleJob2] "j1").get
            ⟨0, by decide⟩).savedBy }) :=
  ⟨(((toggle_modifies_only_social_fields [sampleJob, sampleJob2] sampleUser "j1").2.2
      1 (by decide) (by decide) (by decide)).1 (by decide)).1,
    ((toggle_modifies_only_social_fields [sampleJob, sampleJob2] sampleUser "j1").2.2
      0 (by decide) (by decide) (by decide)).2.2⟩

/-- C6: after every provider step (any operation, or a change of the
acting user), the Saved Jobs view equals the filter of the main job list
by membership of the acting user's id in `savedBy` — hence it is a
subsequence of the main list in the same relative order — and it is the
empty list (not an error) when no user is authenticated. -/
theorem savedJobs_view_invariant (s : StoreState) (op : StoreOp) :
    ((applyOp s op).savedJobs).Sublist (applyOp s op).jobs ∧
    (∀ u : UserInfo, (applyOp s op).currentUser = some u →
      (applyOp s op).savedJobs =
        (applyOp s op).jobs.filter (fun job => job.savedBy.contains u.id)) ∧
    ((applyOp s op).currentUser = none → (applyOp s op).savedJobs = []) := by
  have hsv : (applyOp s op).savedJobs =
      updateSavedJobs (applyOp s op).currentUser (applyOp s op).jobs := rfl
  refine ⟨?_, ?_, ?_⟩
  · rw [hsv]
    unfold updateSavedJobs
    split
    · exact List.filter_sublist _
    · exact List.nil_sublist _
  · intro u hu
    rw [hsv, hu]
    rfl
  · intro hn
    rw [hsv, hn]
    rfl

/-- The concrete provider state used by witnesses. -/
def sampleState : StoreState :=
  { currentUser := some sampleUser, jobs := [sampleJob, sampleJob2], savedJobs := [] }

/-- Witness for C6 at a concrete store step. -/
theorem savedJobs_view_invariant_witness :
    (applyOp sampleState (StoreOp.toggleSaveOp "j1")).savedJobs =
      (applyOp sampleState (StoreOp.toggleSaveOp "j1")).jobs.filter
        (fun job => job.savedBy.contains sampleUser.id) :=
  (savedJobs_view_invariant _ _).2.1 sampleUser rfl

/-- The per-job like transition preserves the bookkeeping invariant. -/
theorem toggleLikeJobFn_invariant (uid jobId : String) (job : JobType)
    (h : jobLikeInvariant job) : jobLikeInvariant (toggleLikeJobFn uid jobId job) := by
  obtain ⟨hcnt, hndl, hnds⟩ := h
  unfold toggleLikeJobFn
  by_cases hid : ((job.id == jobId) = true)
  · rw [if_pos hid]
    by_cases hmem : (job.likedBy.contains uid = true)
    · rw [if_pos hmem]
      have hm : uid ∈ job.likedBy := contains_eq_true_iff.mp hmem
      have hfe : job.likedBy.filter (fun i => i != uid) = job.likedBy.erase uid :=
        (hndl.erase_eq_filter uid).symm
      have hlen : (job.likedBy.erase uid).length = job.likedBy.length - 1 :=
        List.length_erase_of_mem hm
      have hpos : 1 ≤ job.likedBy.length := List.length_pos.mpr (List.ne_nil_of_mem hm)
      refine ⟨?_, ?_, hnds⟩
      · show max 0 (job.likesCount - 1) = _
        rw [hcnt, hfe, hlen]
        omega
      · show (job.likedBy.filter (fun i => i != uid)).Nodup
        rw [hfe]
        exact hndl.erase uid
    · rw [if_neg hmem]
      have hm : uid ∉ job.likedBy := fun hmm => hmem (contains_eq_true_iff.mpr hmm)
      refine ⟨?_, ?_, hnds⟩
      · show job.likesCount + 1 = ((job.likedBy ++ [uid]).length : Int)
        rw [hcnt]
        simp
      · show (job.likedBy ++ [uid]).Nodup
        rw [List.nodup_append]
        exact ⟨hndl, List.nodup_singleton uid, by simpa using hm⟩
  · rw [if_neg hid]
    exact ⟨hcnt, hndl, hnds⟩

/-- C1: starting from a store satisfying `likesCount == |likedBy|` with
duplicate-free `likedBy` and `savedBy`, any sequence of `toggleJobLike`
calls by authenticated users keeps the invariant for every job (and in
particular after each single call). -/
theorem toggleJobLike_preserves_invariant (jobs : List JobType)
    (calls : List (UserInfo × String)) (h : storeLikeInvariant jobs) :
    storeLikeInvariant (applyToggles jobs calls) := by
  induction calls generalizing jobs with
  | nil => exact h
  | cons c cs ih =>
    have hstep : storeLikeInvariant (toggleJobLike (some c.1) jobs c.2) := by
      intro job hjob
      have hjob' : job ∈ jobs.map (toggleLikeJobFn c.1.id c.2) := hjob
      obtain ⟨x, hx, rfl⟩ := List.mem_map.mp hjob'
      exact toggleLikeJobFn_invariant _ _ _ (h x hx)
    exact ih _ hstep

/-- Witness for C1: the invariant survives a concrete toggle sequence. -/
theorem toggleJobLike_preserves_invariant_witness :
    storeLikeInvariant (applyToggles [sampleJob, sampleJob2]
      [(sampleUser, "j1"), (sampleUser, "j2"), (sampleUser, "j1")]) :=
  toggleJobLike_preserves_invariant _ _ (by decide)

/-- Counterexample to C2 as stated: on a job whose `likedBy` is
`["U", "V"]` (with consistent `likesCount = 2`), user `"U"` toggling like
twice yields `likedBy = ["V", "U"]` — the removed id is re-appended at the
end, so the job is NOT returned to exactly its original `likedBy`. -/
theorem toggleJobLike_twice_counterexample :
    getJob [sampleJob] "j1" = some sampleJob ∧
    sampleJob.likedBy.Nodup ∧
    sampleJob.likesCount = (sampleJob.likedBy.length : Int) ∧
    sampleJob.likedBy = ["U", "V"] ∧
    (getJob (toggleJobLike (some sampleUser) (toggleJobLike (some sampleUser)
        [sampleJob] "j1") "j1") "j1").map JobType.likedBy = some ["V", "U"] ∧
    getJob (toggleJobLike (some sampleUser) (toggleJobLike (some sampleUser)
        [sampleJob] "j1") "j1") "j1" ≠ some sampleJob := by
  decide

/-- C2 (amended): for a stored job with duplicate-free `likedBy` and
`likesCount = |likedBy|`, toggling like twice by the same user restores
`likesCount` and every other field exactly, and restores `likedBy` up to
permutation; when the user id was not already in `likedBy` the job is
restored exactly.  On seed job `'2'` (empty `likedBy`) the claimed
scenario holds exactly: one toggle yields `likedBy = [U]`,
`likesCount = 1`, a second toggle yields `likedBy = []`,
`likesCount = 0`. -/
theorem toggleJobLike_twice_restores :
    (∀ (jobs : List JobType) (jobId : String) (u : UserInfo) (j : JobType),
      getJob jobs jobId = some j → j.likedBy.Nodup →
      j.likesCount = (j.likedBy.length : Int) →
      ∃ j', getJob (toggleJobLike (some u) (toggleJobLike (some u) jobs jobId) jobId) jobId
          = some j' ∧
        j'.likedBy.Perm j.likedBy ∧
        j'.likesCount = j.likesCount ∧
        j' = { j with likedBy := j'.likedBy } ∧
        (u.id ∉ j.likedBy → j' = j)) ∧
    (∀ (now : Nat) (u : UserInfo),
      (getJob (toggleJobLike (some u) (getMockJobs now) "2") "2").map
        (fun jj => (jj.likedBy, jj.likesCount)) = some ([u.id], (1 : Int)) ∧
      (getJob (toggleJobLike (some u) (toggleJobLike (some u) (getMockJobs now) "2") "2")
          "2").map (fun jj => (jj.likedBy, jj.likesCount)) =
        some (([] : List String), (0 : Int))) := by
  constructor
  · intro jobs jobId u j hfind hnd hcnt
    unfold getJob at hfind ⊢
    have heq : j.id = jobId := by simpa using List.find?_some hfind
    have hjid : (j.id == jobId) = true := by simp [heq]
    have hgoal : (toggleJobLike (some u) (toggleJobLike (some u) jobs jobId) jobId).find?
        (fun job => job.id == jobId) =
        some (toggleLikeJobFn u.id jobId (toggleLikeJobFn u.id jobId j)) := by
      show ((jobs.map (toggleLikeJobFn u.id jobId)).map (toggleLikeJobFn u.id jobId)).find?
        (fun job => job.id == jobId) = _
      rw [find?_map_of_pred_eq _ _ (fun x => by rw [toggleLikeJobFn_id]),
        find?_map_of_pred_eq _ _ (fun x => by rw [toggleLikeJobFn_id]), hfind]
      rfl
    by_cases hmem : (j.likedBy.contains u.id = true)
    · have hm : u.id ∈ j.likedBy := contains_eq_true_iff.mp hmem
      have hpos : 1 ≤ j.likedBy.length := List.length_pos.mpr (List.ne_nil_of_mem hm)
      have h1 : toggleLikeJobFn u.id jobId j =
          { j with likedBy := j.likedBy.filter (fun i => i != u.id)
                   likesCount := max 0 (j.likesCount - 1) } := by
        unfold toggleLikeJobFn
        rw [if_pos hjid, if_pos hmem]
      have hnc : (j.likedBy.filter (fun i => i != u.id)).contains u.id = false := by
        rw [Bool.eq_false_iff]
        intro hcc
        have hbad := (List.mem_filter.mp (contains_eq_true_iff.mp hcc)).2
        simp at hbad
      have h2 : toggleLikeJobFn u.id jobId (toggleLikeJobFn u.id jobId j) =
          { j with likedBy := j.likedBy.filter (fun i => i != u.id) ++ [u.id]
                   likesCount := max 0 (j.likesCount - 1) + 1 } := by
        rw [h1]
        simp [toggleLikeJobFn, hjid, hnc]
      have hfe : j.likedBy.filter (fun i => i != u.id) = j.likedBy.erase u.id :=
        (hnd.erase_eq_filter u.id).symm
      have hcount : max 0 (j.likesCount - 1) + 1 = j.likesCount := by
        rw [hcnt]
        omega
      refine ⟨toggleLikeJobFn u.id jobId (toggleLikeJobFn u.id jobId j), hgoal, ?_, ?_, ?_, ?_⟩
      · rw [h2]
        show (j.likedBy.filter (fun i => i != u.id) ++ [u.id]).Perm j.likedBy
        refine (List.perm_append_singleton _ _).trans ?_
        rw [hfe]
        exact (List.perm_cons_erase hm).symm
      · rw [h2]
        show max 0 (j.likesCount - 1) + 1 = j.likesCount
        exact hcount
      · rw [h2, hcount]
      · intro hno
        exact absurd hm hno
    · have hm : u.id ∉ j.likedBy := fun hmm => hmem (contains_eq_true_iff.mpr hmm)
      have h1 : toggleLikeJobFn u.id jobId j =
          { j with likedBy := j.likedBy ++ [u.id]
                   likesCount := j.likesCount + 1 } := by
        unfold toggleLikeJobFn
        rw [if_pos hjid, if_neg hmem]
      have hyc : (j.likedBy ++ [u.id]).contains u.id = true :=
        contains_eq_true_iff.mpr (by simp)
      have hfilter : (j.likedBy ++ [u.id]).filter (fun i => i != u.id) = j.likedBy := by
        rw [List.filter_append]
        have hself : j.likedBy.filter (fun i => i != u.id) = j.likedBy :=
          List.filter_eq_self.mpr fun a ha => by
            simp only [bne_iff_ne, ne_eq]
            intro hEq
            exact hm (hEq ▸ ha)
        rw [hself]
        simp
      have h2 : toggleLikeJobFn u.id jobId (toggleLikeJobFn u.id jobId j) =
          { j with likedBy := j.likedBy
                   likesCount := max 0 (j.likesCount + 1 - 1) } := by
        rw [h1]
        simp [toggleLikeJobFn, hjid, hyc, hfilter]
      have hcount : max 0 (j.likesCount + 1 - 1) = j.likesCount := by
        rw [hcnt]
        omega
      have hff : toggleLikeJobFn u.id jobId (toggleLikeJobFn u.id jobId j) = j := by
        rw [h2, hcount]
      refine ⟨j, hgoal.trans (by rw [hff]), List.Perm.refl _, rfl, rfl, fun _ => rfl⟩
  · intro now u
    constructor
    · show (((getMockJobs now).map (toggleLikeJobFn u.id "2")).find?
        (fun job => job.id == "2")).map (fun jj => (jj.likedBy, jj.likesCount)) = _
      simp [getMockJobs, toggleLikeJobFn]
    · show ((((getMockJobs now).map (toggleLikeJobFn u.id "2")).map
        (toggleLikeJobFn u.id "2")).find?
        (fun job => job.id == "2")).map (fun jj => (jj.likedBy, jj.likesCount)) = _
      simp [getMockJobs, toggleLikeJobFn]

/-- Witness for the amended C2 at a concrete store (seed-shaped job with
empty `likedBy`): the double toggle restores the job exactly. -/
theorem toggleJobLike_twice_restores_witness :
    ∃ j', getJob (toggleJobLike (some sampleUser) (toggleJobLike (some sampleUser)
        [sampleJob2] "j2") "j2") "j2" = some j' ∧
      j'.likedBy.Perm sampleJob2.likedBy ∧
      j'.likesCount = sampleJob2.likesCount ∧
      j' = { sampleJob2 with likedBy := j'.likedBy } ∧
      (sampleUser.id ∉ sampleJob2.likedBy → j' = sampleJob2) :=
  toggleJobLike_twice_restores.1 [sampleJob2] "j2" sampleUser sampleJob2
    (by decide) (by decide) (by decide)
